import Mathlib

set_option linter.unusedVariables false

/-!
Verification of the RecipeFinder caching layer (src/ProjectFolder/recipe.py).

The development shallowly embeds the caching-relevant parts of the source:
the ingredient extraction in `MealAPI.get_recipe_details` / `get_random_recipe`,
the record cache (`ChefApp.load_recipe_cache` / `ChefApp.save_recipe_cache`),
the image cache (`ChefApp.load_image_cached`), the per-meal read-through body
of `ChefApp.search_recipes` / `ChefApp.view_all_recipes`, and the cache-file
path derivation.  Disk state is modelled as an association list from file
names to artifacts; Python exceptions are modelled with `Except`, and the
`try`/`except` blocks of the source appear as explicit handlers around the
raising bodies.
-/

/-! ## Python string primitives -/

/-- Characters removed by Python's `str.strip()` with no argument. -/
def pyIsSpace (c : Char) : Bool :=
  c = ' ' || c = '\t' || c = '\n' || c = '\r' || c = '\x0b' || c = '\x0c'

/-- Python `str.strip()` on a character list: drop leading and trailing whitespace. -/
def pyStripL (l : List Char) : List Char :=
  ((l.dropWhile pyIsSpace).reverse.dropWhile pyIsSpace).reverse

/-- Python `str.strip()`. -/
def pyStrip (s : String) : String :=
  String.mk (pyStripL s.data)

/-- Python f-string interpolation of a value that is either a string or `None`:
`None` renders as the literal text `"None"`. -/
def pyFmtOpt : Option String → String
  | none => "None"
  | some s => s

/-! ## Ingredient extraction (`MealAPI.get_recipe_details`, lines 78-84, and
`MealAPI.get_random_recipe`, lines 118-123) -/

/-- One ingredient/measure slot of the upstream payload: `meal.get('strIngredientI')`
and `meal.get('strMeasureI')`, each `None` when the key is absent or null. -/
structure Slot where
  ingredient : Option String
  measure : Option String
deriving DecidableEq, Repr

/-- The retention test of the source: `if ingredient and ingredient.strip():` —
the ingredient is not `None`, is a non-empty string, and strips to a non-empty
string. -/
def keepSlot (sl : Slot) : Bool :=
  match sl.ingredient with
  | none => false
  | some s => if s = "" then false else if pyStrip s = "" then false else true

/-- The entry built for a retained slot: `f"{measure} {ingredient}".strip()`. -/
def entryOfSlot (sl : Slot) : String :=
  pyStrip (pyFmtOpt sl.measure ++ " " ++ pyFmtOpt sl.ingredient)

/-- The extraction loop `for i in range(1, 21): ... ingredients.append(...)`,
over the sequence of slots 1..20 in order. -/
def extractIngredients (slots : List Slot) : List String :=
  slots.filterMap (fun sl => if keepSlot sl then some (entryOfSlot sl) else none)

/-- Helper: the extraction loop is the entry map over the retained slots,
in the original slot order. -/
theorem extractIngredients_eq_map_filter (slots : List Slot) :
    extractIngredients slots = (slots.filter keepSlot).map entryOfSlot := by
  induction slots with
  | nil => rfl
  | cons sl rest ih =>
      by_cases h : keepSlot sl = true
      · simp [extractIngredients, List.filterMap_cons, List.filter_cons, h] at ih ⊢
        exact ih
      · simp [extractIngredients, List.filterMap_cons, List.filter_cons, h] at ih ⊢
        exact ih

/-! ## Recipe data model (`Recipe.__init__`: the seven fields, and the JSON
document written by `save_recipe_cache`, which serializes exactly these) -/

/-- One recipe record: the fields of the `Recipe` class, which coincide with
the fields of the cache document. -/
structure RecipeData where
  meal_id : String
  name : String
  category : String
  area : String
  instrs : String
  thumbnail : String
  ingredients : List String
deriving DecidableEq, Repr

/-! ## Image model (the PIL operations used by `load_image_cached`) -/

/-- Encoded image container format of a byte string. -/
inductive ImgFormat
  | jpeg
  | png
deriving DecidableEq, Repr

/-- A binary image payload: its container format, its pixel dimensions and an
abstract pixel content.  `Image.open` raises on bytes that are not a
well-formed image; such artifacts are modelled by `Artifact.corrupt` below
rather than by an `ImageBytes` value. -/
structure ImageBytes where
  format : ImgFormat
  width : Nat
  height : Nat
  pix : Nat
deriving DecidableEq, Repr

/-- A decoded in-memory PIL image: dimensions plus abstract pixel content.
Decoding forgets the container format. -/
structure PILImage where
  width : Nat
  height : Nat
  pix : Nat
deriving DecidableEq, Repr

/-- `Image.open` on well-formed image bytes. -/
def pilOpen (b : ImageBytes) : PILImage :=
  ⟨b.width, b.height, b.pix⟩

/-- `img.save(path, "JPEG")`: re-encodes the decoded image as JPEG, whatever
the source format was. -/
def pilSaveJpeg (i : PILImage) : ImageBytes :=
  ⟨ImgFormat.jpeg, i.width, i.height, i.pix⟩

/-- `img.resize((width, height), Image.Resampling.LANCZOS)`: the result has
exactly the requested dimensions; the pixel content is produced by the
resampling filter, kept abstract as a parameter. -/
def pilResize (resample : Nat → Nat → Nat → Nat) (i : PILImage) (w h : Nat) : PILImage :=
  ⟨w, h, resample i.pix w h⟩

/-! ## Cache storage (the `images` directory) -/

/-- One on-disk artifact in the cache directory: a well-formed recipe JSON
document, a well-formed image file, or bytes that fail to parse/decode. -/
inductive Artifact
  | record (r : RecipeData)
  | image (b : ImageBytes)
  | corrupt
deriving DecidableEq, Repr

/-- The cache directory state: file name to artifact (the most recent write
for a name shadows older ones), plus whether writes succeed.  `writable =
false` models environments where every disk write raises `OSError`. -/
structure CacheStore where
  files : List (String × Artifact)
  writable : Bool
deriving DecidableEq, Repr

/-- Look up the artifact stored under a file name (`os.path.exists` plus read). -/
def lookupStore (st : CacheStore) (k : String) : Option Artifact :=
  (st.files.find? (fun p => p.1 == k)).map (fun p => p.2)

/-- Write an artifact under a file name, overwriting any prior content. -/
def insertStore (st : CacheStore) (k : String) (a : Artifact) : CacheStore :=
  ⟨(k, a) :: st.files, st.writable⟩

/-- File name of the record-cache document for an id:
`f"{meal_id}_recipe.json"` inside the cache directory. -/
def recordKey (meal_id : String) : String :=
  meal_id ++ "_recipe.json"

/-- File name of the image-cache file for an id: `f"{meal_id}.jpg"` inside
the cache directory. -/
def imageKey (meal_id : String) : String :=
  meal_id ++ ".jpg"

/-! ## Record cache operations (`ChefApp.load_recipe_cache`, lines 234-252,
and `ChefApp.save_recipe_cache`, lines 254-270) -/

/-- Python exceptions that the cache code can raise internally. -/
inductive PyExc
  | jsonError
  | ioError
deriving DecidableEq, Repr

/-- The body of `load_recipe_cache`'s `try` block: `json.load` plus the
`Recipe(...)` construction.  Raises on an artifact that is not a well-formed
recipe document. -/
def parseRecipeArtifact : Artifact → Except PyExc RecipeData
  | Artifact.record r => Except.ok r
  | Artifact.image _ => Except.error PyExc.jsonError
  | Artifact.corrupt => Except.error PyExc.jsonError

/-- `ChefApp.load_recipe_cache(meal_id)`: if the cache file exists, try to
parse it, returning `None` on any exception (`except: return None`); if it
does not exist, return `None`.  The second component is the cache state after
the call — the source performs no write, repair or deletion on any path, so it
is returned unchanged on every branch. -/
def load_recipe_cache (st : CacheStore) (meal_id : String) :
    Option RecipeData × CacheStore :=
  match lookupStore st (recordKey meal_id) with
  | none => (none, st)
  | some a =>
      match parseRecipeArtifact a with
      | Except.ok r => (some r, st)
      | Except.error _ => (none, st)

/-- The body of `save_recipe_cache`'s `try` block: serialize the seven fields
and write the document, raising `OSError` when storage is unwritable. -/
def saveRecipeAttempt (st : CacheStore) (r : RecipeData) : Except PyExc CacheStore :=
  if st.writable then
    Except.ok (insertStore st (recordKey r.meal_id) (Artifact.record r))
  else
    Except.error PyExc.ioError

/-- `ChefApp.save_recipe_cache(recipe)`: write the document; any exception is
swallowed (`except: pass`) and the call returns normally with storage
unchanged. -/
def save_recipe_cache (st : CacheStore) (r : RecipeData) : CacheStore :=
  match saveRecipeAttempt st r with
  | Except.ok st2 => st2
  | Except.error _ => st

/-! ## Read-through workflow (per-meal body of `ChefApp.search_recipes`,
lines 1020-1032; the same body appears in `ChefApp.view_all_recipes`,
lines 1097-1109) -/

/-- One iteration of the read-through loop for a meal id: try the cache,
else call `api.get_recipe_details` (the remote source, modelled by the stub
`fetch`; `none` is a failed fetch) and cache a successful result.  Returns the
recipe handed to the caller, the cache state after the iteration, and whether
the remote source was consulted. -/
def search_recipes_step (st : CacheStore) (fetch : String → Option RecipeData)
    (meal_id : String) : Option RecipeData × CacheStore × Bool :=
  match (load_recipe_cache st meal_id).1 with
  | some r => (some r, st, false)
  | none =>
      match fetch meal_id with
      | some r => (some r, save_recipe_cache st r, true)
      | none => (none, st, true)

/-! ## Image cache (`ChefApp.load_image_cached`, lines 272-298) -/

/-- `ChefApp.load_image_cached(url, meal_id, width, height)`: if the cache
file exists, open it; otherwise download (`fetchB`, `none` modelling a raised
network error), save the decoded image back as JPEG, then resize the decoded
image to exactly `(width, height)`.  Any exception — undecodable cache file,
failed download, failed save — is caught and yields `None`.  Returns the
resized image (or `none`), the cache state after the call, and whether a
download was attempted. -/
def load_image_cached (resample : Nat → Nat → Nat → Nat) (st : CacheStore)
    (fetchB : Option ImageBytes) (url meal_id : String) (width height : Nat) :
    Option PILImage × CacheStore × Bool :=
  match lookupStore st (imageKey meal_id) with
  | some (Artifact.image b) =>
      (some (pilResize resample (pilOpen b) width height), st, false)
  | some (Artifact.record _) => (none, st, false)
  | some Artifact.corrupt => (none, st, false)
  | none =>
      match fetchB with
      | none => (none, st, true)
      | some b =>
          if st.writable then
            (some (pilResize resample (pilOpen b) width height),
             insertStore st (imageKey meal_id) (Artifact.image (pilSaveJpeg (pilOpen b))),
             true)
          else
            (none, st, true)

/-! ## Cache-file path derivation (`os.path.join(self.images_dir, ...)` with
`self.images_dir = "images"`, lines 171, 236, 256, 278) -/

/-- Split a character list at `/` into path components. -/
def splitSlash : List Char → List (List Char)
  | [] => [[]]
  | c :: cs =>
      if c = '/' then [] :: splitSlash cs
      else (c :: (splitSlash cs).headD []) :: (splitSlash cs).tail

/-- Path components of a path string. -/
def pathComponents (s : String) : List String :=
  (splitSlash s.data).map String.mk

/-- POSIX `os.path.join(dir, name)` for a single join: an absolute `name`
discards `dir`; otherwise the parts are joined with `/`. -/
def pathJoin (dir name : String) : String :=
  if name.data.head? = some '/' then name else dir ++ "/" ++ name

/-- The storage location `load_recipe_cache`/`save_recipe_cache` derive for an
id: `os.path.join("images", f"{meal_id}_recipe.json")`, the id used verbatim. -/
def recipeCachePath (meal_id : String) : String :=
  pathJoin "images" (recordKey meal_id)

/-- The storage location `load_image_cached` derives for an id:
`os.path.join("images", f"{meal_id}.jpg")`, the id used verbatim. -/
def imageCachePath (meal_id : String) : String :=
  pathJoin "images" (imageKey meal_id)

/-- One step of lexical path normalization: `.` and empty components vanish,
`..` removes the preceding component, anything else is appended. -/
def normStep (acc : List String) (c : String) : List String :=
  if c = ".." then acc.dropLast
  else if c = "." then acc
  else if c = "" then acc
  else acc ++ [c]

/-- Lexical normalization of a component list. -/
def normPath (cs : List String) : List String :=
  cs.foldl normStep []

/-- A path string resolves to a file inside the `images` cache directory when
its normalized form starts with the `images` component followed by at least
one more component. -/
def insideImagesDir (p : String) : Bool :=
  match normPath (pathComponents p) with
  | c :: _ :: _ => c == "images"
  | _ => false

/-! ## Store lemmas -/

/-- Helper: looking up the name just written finds the written artifact. -/
theorem lookupStore_insert_self (st : CacheStore) (k : String) (a : Artifact) :
    lookupStore (insertStore st k a) k = some a := by
  simp [lookupStore, insertStore, List.find?]

/-- Helper: writing one name leaves lookups of other names unchanged. -/
theorem lookupStore_insert_other (st : CacheStore) (k k' : String) (a : Artifact)
    (h : k' ≠ k) : lookupStore (insertStore st k a) k' = lookupStore st k' := by
  simp only [lookupStore, insertStore, List.find?]
  have : (k == k') = false := by
    exact beq_false_of_ne (fun hk => h hk.symm)
  simp [this]

/-- Helper: a successful save leaves the record readable under its id. -/
theorem load_after_save (st : CacheStore) (r : RecipeData) (hw : st.writable = true) :
    (load_recipe_cache (save_recipe_cache st r) r.meal_id).1 = some r := by
  simp [load_recipe_cache, save_recipe_cache, saveRecipeAttempt, hw,
    lookupStore_insert_self, parseRecipeArtifact]

/-- Helper: a successful save keeps the store writable. -/
theorem save_writable (st : CacheStore) (r : RecipeData) :
    (save_recipe_cache st r).writable = st.writable := by
  by_cases hw : st.writable = true
  · simp [save_recipe_cache, saveRecipeAttempt, hw, insertStore]
  · simp [save_recipe_cache, saveRecipeAttempt, hw]

/-- Sample record used by concrete witnesses. -/
def sampleR : RecipeData :=
  ⟨"52772", "Teriyaki Chicken Casserole", "Chicken", "Japanese",
   "Preheat oven.", "http://thumb/52772.jpg", ["1 tsp Salt"]⟩

/-- Empty writable cache directory, used by concrete witnesses. -/
def emptyStore : CacheStore := ⟨[], true⟩

/-! ## Claims -/

/-- Claim C1: read-through correctness.  For an id with no cached record and
a remote source returning record `R` (whose id field is that id) on its one
call, the read-through body hands `R` to the caller with the remote consulted,
`R` is in the cache state produced before the result is used, a direct
`get(id)` on that state returns `R`, and re-running the read-through with the
remote now failing still returns `R` from cache with no further fetch. -/
theorem c1_read_through_correct (st : CacheStore) (meal_id : String) (R : RecipeData)
    (hmiss : (load_recipe_cache st meal_id).1 = none)
    (hid : R.meal_id = meal_id) (hw : st.writable = true) :
    (search_recipes_step st (fun _ => some R) meal_id).1 = some R
    ∧ (load_recipe_cache (search_recipes_step st (fun _ => some R) meal_id).2.1 meal_id).1
        = some R
    ∧ search_recipes_step (search_recipes_step st (fun _ => some R) meal_id).2.1
        (fun _ => none) meal_id
        = (some R, (search_recipes_step st (fun _ => some R) meal_id).2.1, false) := by
  have hstep : search_recipes_step st (fun _ => some R) meal_id
      = (some R, save_recipe_cache st R, true) := by
    simp [search_recipes_step, hmiss]
  have hload : (load_recipe_cache (save_recipe_cache st R) meal_id).1 = some R := by
    have h := load_after_save st R hw
    rwa [hid] at h
  refine ⟨by rw [hstep], by rw [hstep]; exact hload, ?_⟩
  rw [hstep]
  simp [search_recipes_step, hload]

/-- Witness for C1 at a concrete store, id and record. -/
theorem c1_read_through_correct_witness :
    (search_recipes_step emptyStore (fun _ => some sampleR) "52772").1 = some sampleR
    ∧ (load_recipe_cache
        (search_recipes_step emptyStore (fun _ => some sampleR) "52772").2.1 "52772").1
        = some sampleR
    ∧ search_recipes_step
        (search_recipes_step emptyStore (fun _ => some sampleR) "52772").2.1
        (fun _ => none) "52772"
        = (some sampleR,
           (search_recipes_step emptyStore (fun _ => some sampleR) "52772").2.1, false) :=
  c1_read_through_correct emptyStore "52772" sampleR rfl rfl rfl

/-- Claim C4: cache-internal failures never escalate.  `get` always returns
normally with the storage state untouched (no repair, no deletion); on an
artifact that exists but fails to parse, the inner `json.load` raises while
`get` returns absent; when storage is unwritable, the inner write raises while
`put` returns normally as a no-op. -/
theorem c4_cache_failures_soft :
    (∀ st meal_id, ∃ v, load_recipe_cache st meal_id = (v, st))
    ∧ (∀ st meal_id, lookupStore st (recordKey meal_id) = some Artifact.corrupt →
        parseRecipeArtifact Artifact.corrupt = Except.error PyExc.jsonError
        ∧ load_recipe_cache st meal_id = (none, st))
    ∧ (∀ st r, st.writable = false →
        saveRecipeAttempt st r = Except.error PyExc.ioError
        ∧ save_recipe_cache st r = st) := by
  refine ⟨?_, ?_, ?_⟩
  · intro st meal_id
    simp only [load_recipe_cache]
    cases lookupStore st (recordKey meal_id) with
    | none => exact ⟨none, rfl⟩
    | some a =>
        cases hp : parseRecipeArtifact a with
        | ok r => exact ⟨some r, by simp [hp]⟩
        | error e => exact ⟨none, by simp [hp]⟩
  · intro st meal_id h
    exact ⟨rfl, by simp [load_recipe_cache, h, parseRecipeArtifact]⟩
  · intro st r h
    have hw : st.writable = false := h
    exact ⟨by simp [saveRecipeAttempt, hw],
           by simp [save_recipe_cache, saveRecipeAttempt, hw]⟩

/-- Witness for C4 at a concrete corrupt entry and a concrete unwritable store. -/
theorem c4_cache_failures_soft_witness :
    (∃ v, load_recipe_cache ⟨[("9_recipe.json", Artifact.corrupt)], true⟩ "9"
        = (v, ⟨[("9_recipe.json", Artifact.corrupt)], true⟩))
    ∧ (parseRecipeArtifact Artifact.corrupt = Except.error PyExc.jsonError
        ∧ load_recipe_cache ⟨[("9_recipe.json", Artifact.corrupt)], true⟩ "9"
            = (none, ⟨[("9_recipe.json", Artifact.corrupt)], true⟩))
    ∧ (saveRecipeAttempt ⟨[], false⟩ sampleR = Except.error PyExc.ioError
        ∧ save_recipe_cache ⟨[], false⟩ sampleR = ⟨[], false⟩) :=
  ⟨c4_cache_failures_soft.1 ⟨[("9_recipe.json", Artifact.corrupt)], true⟩ "9",
   c4_cache_failures_soft.2.1 ⟨[("9_recipe.json", Artifact.corrupt)], true⟩ "9" rfl,
   c4_cache_failures_soft.2.2 ⟨[], false⟩ sampleR rfl⟩

/-- Claim C5: negative results are not cached.  When the cache misses for `X`
and the remote fetch fails, the read-through body returns absence with the
cache state exactly unchanged and the remote consulted; a retry against a
fixed remote returning `R` still consults the remote and succeeds with `R`. -/
theorem c5_negative_not_cached (st : CacheStore) (X : String) (R : RecipeData)
    (hmiss : (load_recipe_cache st X).1 = none) :
    search_recipes_step st (fun _ => none) X = (none, st, true)
    ∧ (search_recipes_step st (fun _ => some R) X).1 = some R
    ∧ (search_recipes_step st (fun _ => some R) X).2.2 = true := by
  refine ⟨?_, ?_, ?_⟩ <;> simp [search_recipes_step, hmiss]

/-- Witness for C5 at a concrete store, id and record. -/
theorem c5_negative_not_cached_witness :
    search_recipes_step emptyStore (fun _ => none) "52772" = (none, emptyStore, true)
    ∧ (search_recipes_step emptyStore (fun _ => some sampleR) "52772").1 = some sampleR
    ∧ (search_recipes_step emptyStore (fun _ => some sampleR) "52772").2.2 = true :=
  c5_negative_not_cached emptyStore "52772" sampleR rfl

/-- Claim C6: a cache hit short-circuits.  When `get(id)` returns a parsed
record, the read-through body returns that record with the remote source never
consulted (for every stub behavior) and the cache state exactly unchanged. -/
theorem c6_cache_hit_short_circuits (st : CacheStore) (meal_id : String)
    (r : RecipeData) (fetch : String → Option RecipeData)
    (hhit : (load_recipe_cache st meal_id).1 = some r) :
    search_recipes_step st fetch meal_id = (some r, st, false) := by
  simp [search_recipes_step, hhit]

/-- Witness for C6 at a concrete cached record, with a failing stub. -/
theorem c6_cache_hit_short_circuits_witness :
    search_recipes_step ⟨[("52772_recipe.json", Artifact.record sampleR)], true⟩
      (fun _ => none) "52772"
      = (some sampleR, ⟨[("52772_recipe.json", Artifact.record sampleR)], true⟩, false) :=
  c6_cache_hit_short_circuits ⟨[("52772_recipe.json", Artifact.record sampleR)], true⟩
    "52772" sampleR (fun _ => none) rfl

/-- Claim C7: idempotence and full replacement of `put`.  On writable storage,
two `put`s of the same record leave `get(id)` returning that record; a
subsequent `put` of a different record with the same id fully replaces the
stored value — `get(id)` then returns exactly the new record, every field
included, with nothing merged from the old one. -/
theorem c7_put_idempotent_replace (st : CacheStore) (r r2 : RecipeData)
    (hw : st.writable = true) (hid : r2.meal_id = r.meal_id) :
    (load_recipe_cache (save_recipe_cache (save_recipe_cache st r) r) r.meal_id).1
      = some r
    ∧ (load_recipe_cache
        (save_recipe_cache (save_recipe_cache (save_recipe_cache st r) r) r2)
        r.meal_id).1 = some r2 := by
  have hw1 : (save_recipe_cache st r).writable = true := by
    rw [save_writable]; exact hw
  have hw2 : (save_recipe_cache (save_recipe_cache st r) r).writable = true := by
    rw [save_writable]; exact hw1
  refine ⟨load_after_save _ r hw1, ?_⟩
  have h := load_after_save (save_recipe_cache (save_recipe_cache st r) r) r2 hw2
  rwa [hid] at h

/-- Witness for C7 at a concrete record and a concrete replacement. -/
theorem c7_put_idempotent_replace_witness :
    (load_recipe_cache
      (save_recipe_cache (save_recipe_cache emptyStore sampleR) sampleR) "52772").1
      = some sampleR
    ∧ (load_recipe_cache
        (save_recipe_cache
          (save_recipe_cache (save_recipe_cache emptyStore sampleR) sampleR)
          ⟨"52772", "New Name", "Beef", "Unknown", "Stir.", "http://t2", []⟩)
        "52772").1
      = some ⟨"52772", "New Name", "Beef", "Unknown", "Stir.", "http://t2", []⟩ :=
  c7_put_idempotent_replace emptyStore sampleR
    ⟨"52772", "New Name", "Beef", "Unknown", "Stir.", "http://t2", []⟩ rfl rfl

/-- Claim C2: resize determinism and exactness.  Starting from a cache miss on
writable storage, a first `resolve` fetches once and returns an image of
exactly `(w1, h1)`; a second `resolve` with any other pair — and any stub
behavior, including a failing one — is a pure cache hit: no fetch, cache state
unchanged, an image of exactly `(w2, h2)`.  The artifact persisted by the
first call is the encoding of the decoded original, carrying the original
dimensions, independent of every requested size: no resized result is
persisted. -/
theorem c2_resize_exact_single_fetch (resample : Nat → Nat → Nat → Nat)
    (st : CacheStore) (b : ImageBytes) (url meal_id : String)
    (w1 h1 w2 h2 : Nat) (fetch2 : Option ImageBytes)
    (hmiss : lookupStore st (imageKey meal_id) = none) (hw : st.writable = true) :
    ∃ i1 st1 i2,
      load_image_cached resample st (some b) url meal_id w1 h1 = (some i1, st1, true)
      ∧ i1.width = w1 ∧ i1.height = h1
      ∧ load_image_cached resample st1 fetch2 url meal_id w2 h2 = (some i2, st1, false)
      ∧ i2.width = w2 ∧ i2.height = h2
      ∧ lookupStore st1 (imageKey meal_id)
          = some (Artifact.image (pilSaveJpeg (pilOpen b)))
      ∧ (pilSaveJpeg (pilOpen b)).width = b.width
      ∧ (pilSaveJpeg (pilOpen b)).height = b.height := by
  refine ⟨pilResize resample (pilOpen b) w1 h1,
          insertStore st (imageKey meal_id) (Artifact.image (pilSaveJpeg (pilOpen b))),
          pilResize resample (pilOpen (pilSaveJpeg (pilOpen b))) w2 h2,
          ?_, rfl, rfl, ?_, rfl, rfl, ?_, rfl, rfl⟩
  · simp [load_image_cached, hmiss, hw]
  · simp [load_image_cached, lookupStore_insert_self]
  · exact lookupStore_insert_self st (imageKey meal_id)
      (Artifact.image (pilSaveJpeg (pilOpen b)))

/-- Witness for C2 at a concrete original, two concrete sizes and a failing
second stub. -/
theorem c2_resize_exact_single_fetch_witness :
    ∃ i1 st1 i2,
      load_image_cached (fun p _ _ => p) emptyStore
          (some ⟨ImgFormat.png, 4, 3, 7⟩) "http://thumb" "52772" 10 20
        = (some i1, st1, true)
      ∧ i1.width = 10 ∧ i1.height = 20
      ∧ load_image_cached (fun p _ _ => p) st1 none "http://thumb" "52772" 30 40
        = (some i2, st1, false)
      ∧ i2.width = 30 ∧ i2.height = 40
      ∧ lookupStore st1 (imageKey "52772")
          = some (Artifact.image (pilSaveJpeg (pilOpen ⟨ImgFormat.png, 4, 3, 7⟩)))
      ∧ (pilSaveJpeg (pilOpen ⟨ImgFormat.png, 4, 3, 7⟩)).width = 4
      ∧ (pilSaveJpeg (pilOpen ⟨ImgFormat.png, 4, 3, 7⟩)).height = 3 :=
  c2_resize_exact_single_fetch (fun p _ _ => p) emptyStore ⟨ImgFormat.png, 4, 3, 7⟩
    "http://thumb" "52772" 10 20 30 40 none rfl rfl

/-- Claim C8, counterexample: the artifact persisted on an image-cache miss is
not the fetched byte payload.  Fetching a 100x50 PNG payload stores a JPEG
re-encoding of the decoded image, which differs from the fetched bytes. -/
theorem c8_counterexample :
    lookupStore
        (load_image_cached (fun p _ _ => p) emptyStore
          (some ⟨ImgFormat.png, 100, 50, 3⟩) "http://thumb" "52772" 64 64).2.1
        (imageKey "52772")
      = some (Artifact.image ⟨ImgFormat.jpeg, 100, 50, 3⟩)
    ∧ (⟨ImgFormat.jpeg, 100, 50, 3⟩ : ImageBytes) ≠ ⟨ImgFormat.png, 100, 50, 3⟩ := by
  exact ⟨rfl, by decide⟩

/-- Claim C8, amended: on an image-cache miss with a successful fetch and
writable storage, the artifact persisted under the id's image file name is the
fixed-encoding (JPEG) re-encoding of the image decoded from the fetched bytes
— written once, before any resize, and carrying the original dimensions and
pixel content. -/
theorem c8_stored_jpeg_reencoding (resample : Nat → Nat → Nat → Nat)
    (st : CacheStore) (b : ImageBytes) (url meal_id : String) (width height : Nat)
    (hmiss : lookupStore st (imageKey meal_id) = none) (hw : st.writable = true) :
    lookupStore (load_image_cached resample st (some b) url meal_id width height).2.1
        (imageKey meal_id)
      = some (Artifact.image (pilSaveJpeg (pilOpen b))) := by
  simp [load_image_cached, hmiss, hw, lookupStore_insert_self]

/-- Witness for the amended C8 at a concrete PNG payload. -/
theorem c8_stored_jpeg_reencoding_witness :
    lookupStore
        (load_image_cached (fun p _ _ => p) emptyStore
          (some ⟨ImgFormat.png, 100, 50, 3⟩) "http://thumb" "52773" 64 64).2.1
        (imageKey "52773")
      = some (Artifact.image (pilSaveJpeg (pilOpen ⟨ImgFormat.png, 100, 50, 3⟩))) :=
  c8_stored_jpeg_reencoding (fun p _ _ => p) emptyStore ⟨ImgFormat.png, 100, 50, 3⟩
    "http://thumb" "52773" 64 64 rfl rfl

/-- The upstream payload of the ingredient-extraction example: slot 1 is
`Salt` / `1 tsp`, slot 2 has an empty ingredient, slot 3 is `Pepper` /
`2 pinch`, and slots 4..20 are empty. -/
def c3Slots : List Slot :=
  [⟨some "Salt", some "1 tsp"⟩, ⟨some "", some ""⟩, ⟨some "Pepper", some "2 pinch"⟩]
    ++ List.replicate 17 ⟨some "", some ""⟩

/-- Claim C3: ingredient extraction.  The extraction loop keeps exactly the
slots passing the non-empty-ingredient test, in original slot order (it equals
the entry map over the filtered slot list), every retained slot has a
non-empty ingredient string, and on the example payload the result is exactly
`["1 tsp Salt", "2 pinch Pepper"]`. -/
theorem c3_ingredient_extraction :
    extractIngredients c3Slots = ["1 tsp Salt", "2 pinch Pepper"]
    ∧ (∀ slots : List Slot,
        extractIngredients slots = (slots.filter keepSlot).map entryOfSlot)
    ∧ (∀ sl : Slot, keepSlot sl = true → ∃ s, sl.ingredient = some s ∧ s ≠ "") := by
  refine ⟨by decide, extractIngredients_eq_map_filter, ?_⟩
  intro sl h
  unfold keepSlot at h
  cases hsl : sl.ingredient with
  | none => rw [hsl] at h; simp at h
  | some s =>
      rw [hsl] at h
      by_cases hs : s = ""
      · simp [hs] at h
      · exact ⟨s, rfl, hs⟩

/-- Witness for C3's retained-slot conjunct at a concrete slot. -/
theorem c3_ingredient_extraction_witness :
    ∃ s, (Slot.mk (some "Salt") (some "1 tsp")).ingredient = some s ∧ s ≠ "" :=
  c3_ingredient_extraction.2.2 ⟨some "Salt", some "1 tsp"⟩ (by decide)

/-- Helper: stripping eats a single leading space. -/
theorem pyStripL_space_cons (l : List Char) : pyStripL (' ' :: l) = pyStripL l := by
  simp [pyStripL, List.dropWhile_cons, pyIsSpace]

/-- Helper: `dropWhile` distributes over an append whose left part does not
vanish. -/
theorem dropWhile_append_left (p : Char → Bool) (l1 l2 : List Char)
    (h : l1.dropWhile p ≠ []) :
    (l1 ++ l2).dropWhile p = l1.dropWhile p ++ l2 := by
  induction l1 with
  | nil => exact absurd rfl h
  | cons a t ih =>
      by_cases hp : p a = true
      · rw [List.dropWhile_cons] at h
        simp only [hp, if_true] at h
        simp only [List.cons_append, List.dropWhile_cons, hp, if_true]
        exact ih h
      · simp [List.dropWhile_cons, hp]

/-- Helper: a string that strips to something non-empty has a character that
is not whitespace. -/
theorem pyStripL_ne_nil_exists (l : List Char) (h : pyStripL l ≠ []) :
    ∃ c ∈ l, pyIsSpace c = false := by
  by_contra hall
  push_neg at hall
  have hws : ∀ c ∈ l, pyIsSpace c = true := by
    intro c hc
    have := hall c hc
    cases hcs : pyIsSpace c with
    | false => exact absurd hcs this
    | true => rfl
  have hdrop : l.dropWhile pyIsSpace = [] :=
    List.dropWhile_eq_nil_iff.mpr hws
  apply h
  simp [pyStripL, hdrop]

/-- Claim C10: entry format.  Every entry for a slot with a present ingredient
is the f-string interpolation of the measure value, a space and the
ingredient, stripped of surrounding whitespace; a slot whose measure is the
empty string yields exactly the (whitespace-free) ingredient name with no
leading space; a slot whose measure field is absent (`None`) yields an entry
beginning with the literal text `"None "`. -/
theorem c10_entry_format :
    (∀ sl : Slot, ∀ ing, sl.ingredient = some ing →
        entryOfSlot sl = pyStrip (pyFmtOpt sl.measure ++ " " ++ ing))
    ∧ (∀ ing, pyStrip ing = ing → entryOfSlot ⟨some ing, some ""⟩ = ing)
    ∧ (∀ ing, pyStrip ing ≠ "" →
        ∃ rest, (entryOfSlot ⟨some ing, none⟩).data = "None ".data ++ rest) := by
  refine ⟨?_, ?_, ?_⟩
  · intro sl ing h
    simp [entryOfSlot, h, pyFmtOpt]
  · intro ing hing
    show pyStrip ("" ++ " " ++ ing) = ing
    have hdata : ("" ++ " " ++ ing).data = ' ' :: ing.data := by
      rw [String.data_append, String.data_append]
      rfl
    unfold pyStrip
    rw [hdata, pyStripL_space_cons]
    exact hing
  · intro ing h
    have hne : pyStripL ing.data ≠ [] := by
      intro hc
      apply h
      show String.mk (pyStripL ing.data) = ""
      rw [hc]
    obtain ⟨c, hc, hcs⟩ := pyStripL_ne_nil_exists ing.data hne
    have hrev : (ing.data.reverse).dropWhile pyIsSpace ≠ [] := by
      intro hnil
      have hmem := List.dropWhile_eq_nil_iff.mp hnil c (List.mem_reverse.mpr hc)
      rw [hcs] at hmem
      exact Bool.false_ne_true hmem
    refine ⟨((ing.data.reverse).dropWhile pyIsSpace).reverse, ?_⟩
    have hdata : ("None" ++ " " ++ ing).data
        = 'N' :: 'o' :: 'n' :: 'e' :: ' ' :: ing.data := by
      rw [String.data_append, String.data_append]
      rfl
    show (pyStrip ("None" ++ " " ++ ing)).data = _
    unfold pyStrip
    rw [hdata]
    show pyStripL ('N' :: 'o' :: 'n' :: 'e' :: ' ' :: ing.data) = _
    unfold pyStripL
    have hN : pyIsSpace 'N' = false := by decide
    rw [List.dropWhile_cons, hN]
    simp only [Bool.false_eq_true, if_false]
    have hrev2 : ('N' :: 'o' :: 'n' :: 'e' :: ' ' :: ing.data).reverse
        = ing.data.reverse ++ [' ', 'e', 'n', 'o', 'N'] := by
      simp
    rw [hrev2, dropWhile_append_left pyIsSpace _ _ hrev, List.reverse_append]
    rfl

/-- Witness for C10 at concrete slots: a present measure, an empty measure,
and an absent measure. -/
theorem c10_entry_format_witness :
    entryOfSlot ⟨some "Salt", some "1 tsp"⟩ = pyStrip ("1 tsp" ++ " " ++ "Salt")
    ∧ entryOfSlot ⟨some "Pepper", some ""⟩ = "Pepper"
    ∧ ∃ rest, (entryOfSlot ⟨some "Pepper", none⟩).data = "None ".data ++ rest :=
  ⟨c10_entry_format.1 ⟨some "Salt", some "1 tsp"⟩ "Salt" rfl,
   c10_entry_format.2.1 "Pepper" (by decide),
   c10_entry_format.2.2 "Pepper" (by decide)⟩

/-- Helper: splitting never yields an empty component list. -/
theorem splitSlash_ne_nil (l : List Char) : splitSlash l ≠ [] := by
  cases l with
  | nil => simp [splitSlash]
  | cons c cs =>
      by_cases hc : c = '/' <;> simp [splitSlash, hc]

/-- Helper: splitting an append whose left part is slash-free prepends the
left part onto the first component of the right split. -/
theorem splitSlash_append_no_slash (l1 l2 : List Char) (h : ∀ c ∈ l1, c ≠ '/') :
    splitSlash (l1 ++ l2)
      = (l1 ++ (splitSlash l2).headD []) :: (splitSlash l2).tail := by
  induction l1 with
  | nil =>
      cases hsp : splitSlash l2 with
      | nil => exact absurd hsp (splitSlash_ne_nil l2)
      | cons hd tl => simp [hsp]
  | cons a t ih =>
      have ha : a ≠ '/' := h a (List.mem_cons_self a t)
      have ht : ∀ c ∈ t, c ≠ '/' := fun c hc => h c (List.mem_cons_of_mem a hc)
      have ihh := ih ht
      show splitSlash (a :: (t ++ l2)) = _
      rw [show splitSlash (a :: (t ++ l2))
            = if a = '/' then [] :: splitSlash (t ++ l2)
              else (a :: (splitSlash (t ++ l2)).headD []) :: (splitSlash (t ++ l2)).tail
          from rfl]
      rw [if_neg ha, ihh]
      simp

/-- Helper: a normalization step on an ordinary component appends it. -/
theorem normStep_plain (acc : List String) (c : String)
    (h1 : c ≠ "..") (h2 : c ≠ ".") (h3 : c ≠ "") :
    normStep acc c = acc ++ [c] := by
  simp [normStep, h1, h2, h3]

/-- Helper: a string with a short strict length bound is never obtained by
appending a longer suffix. -/
theorem append_long_suffix_ne (s sfx t : String)
    (h : t.data.length < sfx.data.length) : s ++ sfx ≠ t := by
  intro he
  have hd : (s ++ sfx).data = t.data := by rw [he]
  rw [String.data_append] at hd
  have hle : sfx.data.length ≤ s.data.length + sfx.data.length := Nat.le_add_left _ _
  rw [← List.length_append, hd] at hle
  omega

/-- Helper: joining `images` with a slash-free, non-special file name lands
inside the cache directory. -/
theorem insideImagesDir_pathJoin (name : String)
    (hns : ∀ c ∈ name.data, c ≠ '/')
    (h1 : name ≠ "..") (h2 : name ≠ ".") (h3 : name ≠ "") :
    insideImagesDir (pathJoin "images" name) = true := by
  have hhead : ¬ name.data.head? = some '/' := by
    cases hnd : name.data with
    | nil => simp
    | cons c cs =>
        simp only [List.head?]
        intro he
        injection he with he
        exact hns c (by rw [hnd]; exact List.mem_cons_self c cs) he
  have hpj : pathJoin "images" name = "images" ++ "/" ++ name := by
    simp [pathJoin, hhead]
  have hdata : ("images" ++ "/" ++ name).data = "images".data ++ '/' :: name.data := by
    rw [String.data_append, String.data_append]
    rfl
  have hsp2 : splitSlash name.data = [name.data] := by
    have hx := splitSlash_append_no_slash name.data [] hns
    simpa [splitSlash] using hx
  have hsp1 : splitSlash ('/' :: name.data) = [] :: [name.data] := by
    simp [splitSlash, hsp2]
  have hcomps : splitSlash ("images".data ++ '/' :: name.data)
      = ["images".data, name.data] := by
    rw [splitSlash_append_no_slash "images".data ('/' :: name.data) (by decide), hsp1]
    simp
  have hmk : String.mk name.data = name := by
    cases name
    rfl
  have hpc : pathComponents (pathJoin "images" name) = ["images", name] := by
    rw [hpj]
    unfold pathComponents
    rw [hdata, hcomps]
    simp [hmk]
  have hn1 : normStep [] "images" = ["images"] := by decide
  have hn2 : normStep ["images"] name = ["images", name] :=
    normStep_plain ["images"] name h1 h2 h3
  unfold insideImagesDir
  rw [hpc]
  unfold normPath
  rw [List.foldl_cons, hn1, List.foldl_cons, hn2, List.foldl_nil]
  simp

/-- Claim C9, counterexample: the identifier is interpolated into the storage
path with no validation or sanitization, so an identifier containing path
components derives a location outside the cache directory: for
`meal_id = "../evil"` the record-cache path is `images/../evil_recipe.json`,
which normalizes to a location outside `images`. -/
theorem c9_counterexample :
    recipeCachePath "../evil" = "images/../evil_recipe.json"
    ∧ insideImagesDir "images/../evil_recipe.json" = false
    ∧ ¬ (∀ meal_id : String, insideImagesDir (recipeCachePath meal_id) = true) := by
  refine ⟨by decide, by decide, fun hall => absurd (hall "../evil") (by decide)⟩

/-- Claim C9, amended: no validation or sanitization is performed — both
caches interpolate the identifier verbatim into the joined path.
Identifiers free of path separators (as the upstream source's numeric ids
are) derive locations inside the cache directory, but an identifier with path
components escapes it, as the counterexample shows. -/
theorem c9_no_sanitization (meal_id : String)
    (hsafe : ∀ c ∈ meal_id.data, c ≠ '/') :
    recipeCachePath meal_id = "images" ++ "/" ++ (meal_id ++ "_recipe.json")
    ∧ imageCachePath meal_id = "images" ++ "/" ++ (meal_id ++ ".jpg")
    ∧ insideImagesDir (recipeCachePath meal_id) = true
    ∧ insideImagesDir (imageCachePath meal_id) = true := by
  have hsfx1 : ∀ c ∈ ("_recipe.json" : String).data, c ≠ '/' := by decide
  have hsfx2 : ∀ c ∈ (".jpg" : String).data, c ≠ '/' := by decide
  have hnsrec : ∀ c ∈ (meal_id ++ "_recipe.json").data, c ≠ '/' := by
    intro c hc
    rw [String.data_append] at hc
    rcases List.mem_append.mp hc with hmem | hmem
    · exact hsafe c hmem
    · exact hsfx1 c hmem
  have hnsimg : ∀ c ∈ (meal_id ++ ".jpg").data, c ≠ '/' := by
    intro c hc
    rw [String.data_append] at hc
    rcases List.mem_append.mp hc with hmem | hmem
    · exact hsafe c hmem
    · exact hsfx2 c hmem
  have hheadrec : ¬ (meal_id ++ "_recipe.json").data.head? = some '/' := by
    cases hnd : (meal_id ++ "_recipe.json").data with
    | nil => simp
    | cons c cs =>
        simp only [List.head?]
        intro he
        injection he with he
        exact hnsrec c (by rw [hnd]; exact List.mem_cons_self c cs) he
  have hheadimg : ¬ (meal_id ++ ".jpg").data.head? = some '/' := by
    cases hnd : (meal_id ++ ".jpg").data with
    | nil => simp
    | cons c cs =>
        simp only [List.head?]
        intro he
        injection he with he
        exact hnsimg c (by rw [hnd]; exact List.mem_cons_self c cs) he
  refine ⟨?_, ?_, ?_, ?_⟩
  · show pathJoin "images" (meal_id ++ "_recipe.json")
        = "images" ++ "/" ++ (meal_id ++ "_recipe.json")
    unfold pathJoin
    rw [if_neg hheadrec]
  · show pathJoin "images" (meal_id ++ ".jpg")
        = "images" ++ "/" ++ (meal_id ++ ".jpg")
    unfold pathJoin
    rw [if_neg hheadimg]
  · show insideImagesDir (pathJoin "images" (meal_id ++ "_recipe.json")) = true
    exact insideImagesDir_pathJoin (meal_id ++ "_recipe.json") hnsrec
      (append_long_suffix_ne _ _ _ (by decide))
      (append_long_suffix_ne _ _ _ (by decide))
      (append_long_suffix_ne _ _ _ (by decide))
  · show insideImagesDir (pathJoin "images" (meal_id ++ ".jpg")) = true
    exact insideImagesDir_pathJoin (meal_id ++ ".jpg") hnsimg
      (append_long_suffix_ne _ _ _ (by decide))
      (append_long_suffix_ne _ _ _ (by decide))
      (append_long_suffix_ne _ _ _ (by decide))

/-- Witness for the amended C9 at the concrete slash-free id `52772`. -/
theorem c9_no_sanitization_witness :
    recipeCachePath "52772" = "images" ++ "/" ++ ("52772" ++ "_recipe.json")
    ∧ imageCachePath "52772" = "images" ++ "/" ++ ("52772" ++ ".jpg")
    ∧ insideImagesDir (recipeCachePath "52772") = true
    ∧ insideImagesDir (imageCachePath "52772") = true :=
  c9_no_sanitization "52772" (by decide)
